import Mathlib

/-!
Shallow embedding of the jira-claude-bot core (Poller, Daemon, Worker,
GitHubClient, ClaudeClient) and proofs about it.

External systems (the JIRA tracker, the network, the agent subprocess) are
modelled as oracles: each external call's outcome is a parameter of the
function that performs it.  The local git checkout is modelled as an explicit
`GitRepo` state acted on by the `GitHubClient` operations.
-/

namespace JiraClaudeBot

/-- A JIRA ticket, restricted to the fields the core workflow reads
(src/clients/jira.ts `JiraTicket`; attachments reduced to their filenames). -/
structure JiraTicket where
  key : String
  summary : String
  type : String
  attachments : List String
  deriving Repr, DecidableEq

/-- A pull-request handle (src/clients/github.ts `PullRequest`). -/
structure PullRequest where
  number : Nat
  url : String
  title : String
  state : String
  headSha : String
  deriving Repr, DecidableEq

/-- Result of one agent run (src/clients/claude.ts `ClaudeResult`). -/
structure ClaudeResult where
  success : Bool
  output : String
  error : Option String
  deriving Repr, DecidableEq

/-- Outcome of one ticket-processing attempt (src/core/worker.ts `WorkResult`). -/
structure WorkResult where
  success : Bool
  ticketKey : String
  pr : Option PullRequest := none
  previewUrl : Option String := none
  error : Option String := none
  changesSummary : Option String := none
  deriving Repr, DecidableEq

/-! ## Poller (src/core/poller.ts)

The poller's only mutable state is `processedTickets : Set<string>`, modelled
as a list of keys.  The tracker query (`jira.searchTickets`) is an oracle:
either a ticket batch or a thrown error. -/

/-- Poller state: the in-process processed-ticket set. -/
structure PollerState where
  processedTickets : List String
  deriving Repr, DecidableEq

namespace Poller

/-- A fresh poller: `processedTickets` starts empty (field initializer in the
class declaration). -/
def init : PollerState := ⟨[]⟩

/-- `getNextTicket`: ask the tracker for a batch; on a thrown error, log and
return `null`; otherwise filter out already-processed keys and return the
first remaining ticket (or `null` if none).  The state is returned alongside
to make explicit that the method never writes `processedTickets`. -/
def getNextTicket (search : Except String (List JiraTicket)) (s : PollerState) :
    Option JiraTicket × PollerState :=
  match search with
  | .error _ => (none, s)
  | .ok tickets =>
    let available := tickets.filter (fun t => ¬ s.processedTickets.contains t.key)
    (available.head?, s)

/-- `markProcessed(key)`: insert into the processed set (`Set.add`). -/
def markProcessed (s : PollerState) (ticketKey : String) : PollerState :=
  if s.processedTickets.contains ticketKey then s
  else ⟨ticketKey :: s.processedTickets⟩

/-- `clearProcessed()`: empty the processed set (`Set.clear`). -/
def clearProcessed (_s : PollerState) : PollerState := ⟨[]⟩

/-- `getProcessedCount()`. -/
def getProcessedCount (s : PollerState) : Nat := s.processedTickets.length

end Poller

/-! ## Daemon.poll (src/core/daemon.ts)

One iteration of the daemon loop, from the point a poll is made.  The worker
is an oracle `work : String → WorkResult`: the daemon calls
`worker.processTicket(ticket.key)` and only inspects the returned result for
logging. -/

/-- Daemon state relevant to one poll: the poller's state and the
`currentTicket` marker. -/
structure DaemonState where
  poller : PollerState
  currentTicket : Option String
  deriving Repr, DecidableEq

namespace Daemon

/-- `poll()`: ask the poller for a ticket; if none, return unchanged.
Otherwise set `currentTicket`, run a fresh worker to completion, then
unconditionally mark the ticket processed and clear `currentTicket`,
whatever the result was.  The dispatched result is returned for logging. -/
def poll (search : Except String (List JiraTicket)) (work : String → WorkResult)
    (s : DaemonState) : DaemonState × Option WorkResult :=
  match Poller.getNextTicket search s.poller with
  | (none, p) => ({ s with poller := p }, none)
  | (some ticket, p) =>
    let s1 : DaemonState := { poller := p, currentTicket := some ticket.key }
    let result := work ticket.key
    ({ poller := Poller.markProcessed s1.poller ticket.key, currentTicket := none },
     some result)

end Daemon

/-! ## String helpers (src/core/worker.ts)

JavaScript string primitives used by the worker, re-implemented over
`List Char` so that the kernel can evaluate them.  All inputs of interest are
ASCII, where these agree with the JavaScript semantics. -/

/-- `String.prototype.toLowerCase` on an ASCII character. -/
def lowerChar (c : Char) : Char :=
  if 65 ≤ c.toNat ∧ c.toNat ≤ 90 then Char.ofNat (c.toNat + 32) else c

/-- Membership in the regex character class `[a-z0-9]`. -/
def isLowerAlnum (c : Char) : Bool :=
  decide ((97 ≤ c.toNat ∧ c.toNat ≤ 122) ∨ (48 ≤ c.toNat ∧ c.toNat ≤ 57))

/-- `s.replace(/pat/g, rep)` for a literal pattern `pat`: left-to-right scan,
at each position either consume a pattern occurrence or one character.  The
fuel argument (instantiated with the input length) only serves structural
termination; one character is consumed per step, so it is never exhausted. -/
def replaceAllAux (pat rep : List Char) : Nat → List Char → List Char
  | 0, s => s
  | _, [] => []
  | fuel+1, c :: cs =>
    if pat ≠ [] ∧ pat.isPrefixOf (c :: cs) then
      rep ++ replaceAllAux pat rep fuel (List.drop pat.length (c :: cs))
    else c :: replaceAllAux pat rep fuel cs

/-- Global literal-pattern replacement on strings. -/
def replaceAll (s pat rep : String) : String :=
  String.mk (replaceAllAux pat.toList rep.toList s.toList.length s.toList)

/-- Collapse adjacent duplicate hyphens: together with mapping every
non-`[a-z0-9]` character to `-`, this realizes `replace(/[^a-z0-9]+/g, '-')`
(each maximal run of excluded characters becomes a single hyphen). -/
def squashDashes : List Char → List Char
  | [] => []
  | [c] => [c]
  | c :: d :: rest =>
    if c = '-' ∧ d = '-' then squashDashes (d :: rest)
    else c :: squashDashes (d :: rest)

/-- Remove a single leading hyphen, as matched by the `^-` alternative of
`replace(/^-|-$/g, '')`. -/
def dropLeadingDash (l : List Char) : List Char :=
  match l with
  | '-' :: rest => rest
  | _ => l

/-- Remove a single trailing hyphen (`-$` alternative). -/
def dropTrailingDash (l : List Char) : List Char :=
  (dropLeadingDash l.reverse).reverse

/-- `s.substring(0, 50)` (code units = characters on ASCII input). -/
def take50 (l : List Char) : List Char := l.take 50

/-- Does `pat` occur as a contiguous substring? -/
def containsSeq (pat : List Char) : List Char → Bool
  | [] => pat.isPrefixOf ([] : List Char)
  | c :: cs => pat.isPrefixOf (c :: cs) || containsSeq pat cs

namespace Worker

/-- `Worker.sanitizeForBranch`: lower-case, collapse runs of characters
outside `[a-z0-9]` to single hyphens, strip one leading and one trailing
hyphen, truncate to 50. -/
def sanitizeForBranch (text : String) : String :=
  let lowered := text.toList.map lowerChar
  let dashed := lowered.map (fun c => if isLowerAlnum c then c else '-')
  let collapsed := squashDashes dashed
  let trimmed := dropTrailingDash (dropLeadingDash collapsed)
  String.mk (take50 trimmed)

/-- `Worker.formatPattern`: substitute `ticket_key` (between braces), then
the sanitized summary, then the lower-cased type, into the pattern. -/
def formatPattern (pattern : String) (ticket : JiraTicket) : String :=
  replaceAll
    (replaceAll (replaceAll pattern "{ticket_key}" ticket.key)
      "{summary}" (sanitizeForBranch ticket.summary))
    "{type}" (String.mk (ticket.type.toList.map lowerChar))

end Worker

/-! ## Git state and GitHubClient (src/clients/github.ts)

The working copy is modelled as branch-name → head-commit maps for the local
clone and for `origin`, plus the current branch and the porcelain status.
Head commits are abstract counters: a branch created from another starts with
the same head; committing bumps the current head, so two branches have equal
heads exactly when neither has commits the other lacks. -/

/-- Parsed `git status --porcelain` output (`GitHubClient.getStatus`). -/
structure GitStatus where
  staged : List String
  unstaged : List String
  untracked : List String
  deriving Repr, DecidableEq

/-- State of the local working copy and of the `origin` remote. -/
structure GitRepo where
  localBranches : List (String × Nat)
  remoteBranches : List (String × Nat)
  currentBranch : String
  status : GitStatus
  deriving Repr, DecidableEq

/-- Head commit of a branch in a branch map. -/
def lookupBranch (l : List (String × Nat)) (b : String) : Option Nat :=
  match l with
  | [] => none
  | (k, v) :: rest => if k = b then some v else lookupBranch rest b

/-- Set a branch head in a branch map (insert or overwrite). -/
def setBranch (l : List (String × Nat)) (b : String) (h : Nat) : List (String × Nat) :=
  (b, h) :: l.filter (fun p => p.1 ≠ b)

/-- Delete a branch from a branch map. -/
def removeBranch (l : List (String × Nat)) (b : String) : List (String × Nat) :=
  l.filter (fun p => p.1 ≠ b)

/-- `git checkout b`: succeeds when the branch exists locally. -/
def gitCheckout (b : String) (g : GitRepo) : Except String GitRepo :=
  if (lookupBranch g.localBranches b).isSome then
    .ok { g with currentBranch := b }
  else .error ("git checkout failed: " ++ b)

/-- `git pull origin b`: fast-forward the local branch to the remote head;
fails when the remote has no such branch. -/
def gitPull (b : String) (g : GitRepo) : Except String GitRepo :=
  match lookupBranch g.remoteBranches b with
  | some h => .ok { g with localBranches := setBranch g.localBranches b h }
  | none => .error ("git pull failed: " ++ b)

/-- `git branch -D b`: force-delete a local branch; git refuses to delete the
checked-out branch, and deleting an unknown branch fails. -/
def gitBranchDelete (b : String) (g : GitRepo) : Except String GitRepo :=
  if b = g.currentBranch then .error ("cannot delete checked out branch " ++ b)
  else if (lookupBranch g.localBranches b).isSome then
    .ok { g with localBranches := removeBranch g.localBranches b }
  else .error ("branch not found: " ++ b)

/-- `git push origin --delete b`: fails when the remote branch is absent. -/
def gitPushDelete (b : String) (g : GitRepo) : Except String GitRepo :=
  if (lookupBranch g.remoteBranches b).isSome then
    .ok { g with remoteBranches := removeBranch g.remoteBranches b }
  else .error ("remote ref does not exist: " ++ b)

/-- `git checkout -b b`: fails when the branch already exists; otherwise the
new branch starts at the current head and becomes current. -/
def gitCheckoutNew (b : String) (g : GitRepo) : Except String GitRepo :=
  if (lookupBranch g.localBranches b).isSome then
    .error ("a branch named " ++ b ++ " already exists")
  else
    match lookupBranch g.localBranches g.currentBranch with
    | some h => .ok { g with localBranches := (b, h) :: g.localBranches, currentBranch := b }
    | none => .error "could not resolve HEAD"

namespace GitHubClient

/-- `GitHubClient.getBranchExists` (`git rev-parse --verify b`). -/
def getBranchExists (b : String) (g : GitRepo) : Bool :=
  (lookupBranch g.localBranches b).isSome

/-- `GitHubClient.createBranch(branchName, baseBranch)`: check out and pull
the base, force-delete a pre-existing local branch of that name, attempt to
delete a same-named remote branch tolerating its absence, then create the
branch from the updated base.  Each git command can throw; the returned state
is the state at the point of the failure. -/
def createBranch (branchName baseBranch : String) (g0 : GitRepo) :
    GitRepo × Except String Unit :=
  match gitCheckout baseBranch g0 with
  | .error msg => (g0, .error msg)
  | .ok g1 =>
  match gitPull baseBranch g1 with
  | .error msg => (g1, .error msg)
  | .ok g2 =>
  match (if getBranchExists branchName g2 then gitBranchDelete branchName g2
         else .ok g2) with
  | .error msg => (g2, .error msg)
  | .ok g3 =>
  let g4 := match gitPushDelete branchName g3 with
    | .ok g => g
    | .error _ => g3
  match gitCheckoutNew branchName g4 with
  | .error msg => (g4, .error msg)
  | .ok g5 => (g5, .ok ())

/-- `GitHubClient.checkoutBranch`. -/
def checkoutBranch (branchName : String) (g : GitRepo) : Except String GitRepo :=
  gitCheckout branchName g

/-- `GitHubClient.getStatus`. -/
def getStatus (g : GitRepo) : GitStatus := g.status

/-- `GitHubClient.hasNewCommits(baseBranch)`: `git log base..HEAD` is
non-empty exactly when the current head differs from the base head; a failing
`git log` (unknown ref) is caught and reported as `false`. -/
def hasNewCommits (baseBranch : String) (g : GitRepo) : Bool :=
  match lookupBranch g.localBranches g.currentBranch, lookupBranch g.localBranches baseBranch with
  | some hc, some hb => decide (hc ≠ hb)
  | _, _ => false

/-- `GitHubClient.commitChanges(message)` without a file list:
`git add -A` then `git commit`; committing with a clean tree fails, otherwise
the tree becomes clean and the current head advances. -/
def commitChanges (_message : String) (g : GitRepo) : Except String GitRepo :=
  if g.status = ⟨[], [], []⟩ then .error "nothing to commit"
  else
    match lookupBranch g.localBranches g.currentBranch with
    | some h => .ok { g with status := ⟨[], [], []⟩,
                             localBranches := setBranch g.localBranches g.currentBranch (h + 1) }
    | none => .error "could not resolve HEAD"

/-- `GitHubClient.pushBranch` (`git push -u origin b`): the network outcome is
an oracle; on success the remote head becomes the local head. -/
def pushBranch (net : Except String Unit) (branchName : String) (g : GitRepo) :
    Except String GitRepo :=
  match net, lookupBranch g.localBranches branchName with
  | .error msg, _ => .error msg
  | .ok _, some h => .ok { g with remoteBranches := setBranch g.remoteBranches branchName h }
  | .ok _, none => .error ("src refspec " ++ branchName ++ " does not match any")

end GitHubClient

/-! ## Worker workflow (src/core/worker.ts)

`processTicket` is a linear sequence of steps, each of which can throw.
External calls whose outcome is not determined by the `GitRepo` state are
oracles in a `WorkerEnv`.  A trace of attempted client calls is collected so
that "does not push / does not open a PR" claims are expressible. -/

/-- The subset of the project configuration read by `processTicket`
(src/core/config.ts `ProjectConfig`). -/
structure PrConfig where
  baseBranch : String
  titlePattern : String
  bodyTemplate : String
  deriving Repr, DecidableEq

/-- Configured ticket transitions (`workflow.transitions`). -/
structure TransitionsConfig where
  onPrCreated : Option String
  deriving Repr, DecidableEq

/-- `workflow` section of the project configuration. -/
structure WorkflowConfig where
  branchPattern : String
  commitPattern : String
  pr : PrConfig
  transitions : TransitionsConfig
  deriving Repr, DecidableEq

/-- `deployment` section of the project configuration. -/
structure DeploymentConfig where
  waitForPreview : Bool
  previewTimeout : Nat
  deriving Repr, DecidableEq

/-- Project configuration fields consumed by the worker. -/
structure ProjectConfig where
  workflow : WorkflowConfig
  deployment : DeploymentConfig
  deriving Repr, DecidableEq

/-- Outcomes of the external calls made during one `processTicket` run. -/
structure WorkerEnv where
  /-- `jira.getTicket(ticketKey)`. -/
  getTicket : Except String JiraTicket
  /-- `downloadAttachments(ticket)` (only consulted when attachments exist). -/
  downloadAttachments : Except String Unit
  /-- `jira.getTicketUrl(ticketKey)` (pure URL construction). -/
  ticketUrl : String
  /-- Result of `claude.workTicket`. -/
  claudeResult : ClaudeResult
  /-- Working-tree status left behind by the agent subprocess. -/
  claudeStatus : GitStatus
  /-- Number of commits the agent subprocess added on the current branch. -/
  claudeCommits : Nat
  /-- Network outcome of `git push -u origin branch`. -/
  push : Except String Unit
  /-- Modelled from the spec: `github.getCommitSummary(baseBranch)` derives a
  changes summary from the commit log between the base branch and HEAD; its
  implementation is absent from the sources (only its caller appears), so it
  is an oracle returning the summary text or throwing. -/
  getCommitSummary : String → Except String String
  /-- `github.createPullRequest(title, body, baseBranch)`. -/
  createPullRequest : String → String → String → Except String PullRequest
  /-- `github.getDeploymentUrl(prNumber, attempts)`: URL, or none after the
  attempt ceiling, or a thrown error (its internal PR lookup can throw). -/
  getDeploymentUrl : Except String (Option String)
  /-- `jira.addComment(ticketKey, comment)`. -/
  addComment : String → Except String Unit
  /-- `jira.transitionTicket(ticketKey, name)`. -/
  transitionTicket : String → Except String Unit

/-- One attempted client call, recorded in order of occurrence. -/
inductive WorkerCall where
  | fetchTicket
  | downloadAttachments
  | createBranch (name base : String)
  | runClaude
  | commit
  | push (name : String)
  | createPr
  | getPreview
  | addComment
  | transition (name : String)
  | checkout (name : String)
  deriving Repr, DecidableEq

/-- JavaScript template interpolation of a possibly-`undefined` string. -/
def jsToString : Option String → String
  | some s => s
  | none => "undefined"

namespace Worker

/-- `Worker.formatPrBody`: placeholder substitution into the configured PR
body template; an empty changes summary falls back to a fixed line. -/
def formatPrBody (cfg : ProjectConfig) (ticket : JiraTicket)
    (ticketUrl changesSummary : String) : String :=
  replaceAll
    (replaceAll
      (replaceAll
        (replaceAll
          (replaceAll cfg.workflow.pr.bodyTemplate "{ticket_key}" ticket.key)
          "{ticket_url}" ticketUrl)
        "{summary}" ticket.summary)
      "{changes_summary}"
      (if changesSummary = "" then "- Implementation details in commits" else changesSummary))
    "{testing_instructions}" "- Review the changes\n- Test on preview deployment"

/-- `Worker.formatJiraComment`: PR link, optional preview link, optional
changes block, closing line (empty strings are falsy and skipped). -/
def formatJiraComment (pr : PullRequest) (previewUrl : Option String)
    (changesSummary : String) : String :=
  let c1 := "PR: " ++ pr.url
  let c2 := match previewUrl with
    | some u => if u = "" then c1 else c1 ++ "\nPreview: " ++ u
    | none => c1
  let c3 := if changesSummary = "" then c2
    else c2 ++ "\n\nChanges made:\n" ++ changesSummary
  c3 ++ "\n\nReady for review."

/-- Effect of the agent subprocess on the working copy: it leaves some
working-tree status behind and may have committed on the current branch. -/
def runClaudeEffect (env : WorkerEnv) (g : GitRepo) : GitRepo :=
  let branches := match lookupBranch g.localBranches g.currentBranch with
    | some h => setBranch g.localBranches g.currentBranch (h + env.claudeCommits)
    | none => g.localBranches
  { g with status := env.claudeStatus, localBranches := branches }

/-- The `try` block of `Worker.processTicket`: steps 1-11 in order, stopping
at the first thrown error.  Returns the git state reached, the calls
attempted, and either the thrown message or the returned `WorkResult`
(the early no-changes return is an `ok` result with `success = false`). -/
def processTicketBody (cfg : ProjectConfig) (env : WorkerEnv) (ticketKey : String)
    (g0 : GitRepo) : GitRepo × List WorkerCall × Except String WorkResult :=
  match env.getTicket with
  | .error msg => (g0, [.fetchTicket], .error msg)
  | .ok ticket =>
  let evs1 : List WorkerCall :=
    [.fetchTicket] ++ (if ticket.attachments.isEmpty then [] else [.downloadAttachments])
  match (if ticket.attachments.isEmpty then Except.ok () else env.downloadAttachments) with
  | .error msg => (g0, evs1, .error msg)
  | .ok _ =>
  let branchName := Worker.formatPattern cfg.workflow.branchPattern ticket
  let evs2 := evs1 ++ [.createBranch branchName cfg.workflow.pr.baseBranch]
  match GitHubClient.createBranch branchName cfg.workflow.pr.baseBranch g0 with
  | (g1, .error msg) => (g1, evs2, .error msg)
  | (g1, .ok _) =>
  let evs3 := evs2 ++ [.runClaude]
  let g2 := runClaudeEffect env g1
  if env.claudeResult.success = false then
    (g2, evs3, .error ("Claude Code failed: " ++ jsToString env.claudeResult.error))
  else
  let status := GitHubClient.getStatus g2
  let hasUncommitted : Bool :=
    !status.staged.isEmpty || !status.unstaged.isEmpty || !status.untracked.isEmpty
  let hasNewCommits := GitHubClient.hasNewCommits cfg.workflow.pr.baseBranch g2
  if !hasUncommitted && !hasNewCommits then
    (g2, evs3, .ok { success := false, ticketKey := ticketKey, error := some "No changes were made" })
  else
  let evs4 := evs3 ++ (if hasUncommitted then [WorkerCall.commit] else [])
  match (if hasUncommitted then
           GitHubClient.commitChanges (ticketKey ++ ": Implementation") g2
         else .ok g2) with
  | .error msg => (g2, evs4, .error msg)
  | .ok g3 =>
  let evs5 := evs4 ++ [.push branchName]
  match GitHubClient.pushBranch env.push branchName g3 with
  | .error msg => (g3, evs5, .error msg)
  | .ok g4 =>
  let prTitle := Worker.formatPattern cfg.workflow.pr.titlePattern ticket
  match env.getCommitSummary cfg.workflow.pr.baseBranch with
  | .error msg => (g4, evs5, .error msg)
  | .ok changesSummary =>
  let prBody := Worker.formatPrBody cfg ticket env.ticketUrl changesSummary
  let evs6 := evs5 ++ [.createPr]
  match env.createPullRequest prTitle prBody cfg.workflow.pr.baseBranch with
  | .error msg => (g4, evs6, .error msg)
  | .ok pr =>
  let evs7 := evs6 ++ (if cfg.deployment.waitForPreview then [WorkerCall.getPreview] else [])
  match (if cfg.deployment.waitForPreview then env.getDeploymentUrl else .ok none) with
  | .error msg => (g4, evs7, .error msg)
  | .ok rawUrl =>
  let previewUrl : Option String := match rawUrl with
    | some u => if u = "" then none else some u
    | none => none
  let evs8 := evs7 ++ [.addComment]
  match env.addComment (Worker.formatJiraComment pr previewUrl changesSummary) with
  | .error msg => (g4, evs8, .error msg)
  | .ok _ =>
  let evs9 := evs8 ++ (match cfg.workflow.transitions.onPrCreated with
    | some name => [WorkerCall.transition name]
    | none => [])
  match (match cfg.workflow.transitions.onPrCreated with
         | some name => env.transitionTicket name
         | none => Except.ok ()) with
  | .error msg => (g4, evs9, .error msg)
  | .ok _ =>
  let evs10 := evs9 ++ [.checkout cfg.workflow.pr.baseBranch]
  match GitHubClient.checkoutBranch cfg.workflow.pr.baseBranch g4 with
  | .error msg => (g4, evs10, .error msg)
  | .ok g5 =>
    (g5, evs10, .ok { success := true, ticketKey := ticketKey, pr := some pr,
                      previewUrl := previewUrl, error := none,
                      changesSummary := some changesSummary })

/-- `Worker.processTicket`: run the body; any thrown error is caught at the
top, a best-effort checkout of the base branch is attempted (its own failure
swallowed), and a failure result carrying the ticket key and the error
message is returned. -/
def processTicket (cfg : ProjectConfig) (env : WorkerEnv) (ticketKey : String)
    (g0 : GitRepo) : GitRepo × List WorkerCall × WorkResult :=
  match processTicketBody cfg env ticketKey g0 with
  | (g, evs, .ok result) => (g, evs, result)
  | (g, evs, .error msg) =>
    let evs1 := evs ++ [WorkerCall.checkout cfg.workflow.pr.baseBranch]
    let g1 := match GitHubClient.checkoutBranch cfg.workflow.pr.baseBranch g with
      | .ok g2 => g2
      | .error _ => g
    (g1, evs1, { success := false, ticketKey := ticketKey, error := some msg })

end Worker

/-! ## ClaudeClient (src/clients/claude.ts)

`runClaude` spawns the agent subprocess and resolves from its event handlers.
The handlers themselves are synchronous and are embedded directly; the
subprocess and timers they react to are the oracle. -/

namespace ClaudeClient

/-- Default timeout: 30 minutes in milliseconds. -/
def DEFAULT_TIMEOUT_MS : Nat := 30 * 60 * 1000

/-- `this.config.timeout || DEFAULT_TIMEOUT_MS` (`0` is falsy). -/
def effectiveTimeoutMs (configTimeout : Option Nat) : Nat :=
  match configTimeout with
  | some t => if t = 0 then DEFAULT_TIMEOUT_MS else t
  | none => DEFAULT_TIMEOUT_MS

/-- JavaScript interpolation of the nullable exit code. -/
def codeString : Option Int → String
  | some n => toString n
  | none => "null"

/-- The `close` handler: exit code 0 resolves success with the captured
stdout; anything else resolves failure with the captured stderr, or an
exit-code message when stderr is empty (`stderr || ...`). -/
def closeResult (stdout stderr : String) (code : Option Int) : ClaudeResult :=
  if code = some 0 then { success := true, output := stdout, error := none }
  else { success := false, output := stdout,
         error := some (if stderr = "" then "Claude exited with code " ++ codeString code
                        else stderr) }

/-- Signals the timeout handler can send. -/
inductive Signal where
  | SIGTERM
  | SIGKILL
  deriving Repr, DecidableEq

/-- The timeout handler: send SIGTERM, then after a 5-second grace period
send SIGKILL if `childProcess.killed` is still false.  Node sets `killed`
when a `kill` call delivers a signal, so the flag reflects whether the
SIGTERM was delivered, not whether the process has exited. -/
def timeoutKillSequence (killedFlagAfterGrace : Bool) : List Signal :=
  Signal.SIGTERM :: (if killedFlagAfterGrace then [] else [Signal.SIGKILL])

/-- Result resolved on the timeout path: the killed subprocess closes with a
`null` exit code (terminated by signal), so the `close` handler takes its
failure branch. -/
def timedOutResult (stdoutCaptured stderrCaptured : String) : ClaudeResult :=
  closeResult stdoutCaptured stderrCaptured none

/-- Does a message mention the timeout in any spelling used by the code? -/
def mentionsTimeout (s : String) : Bool :=
  containsSeq "timeout".toList s.toList ||
  containsSeq "Timeout".toList s.toList ||
  containsSeq "timed out".toList s.toList ||
  containsSeq "Timed out".toList s.toList

end ClaudeClient

/-! ## Concrete instances used by the concrete-instance theorems -/

/-- A concrete project configuration mirroring the shipped defaults. -/
def sampleConfig : ProjectConfig :=
  { workflow :=
      { branchPattern := "feature/{ticket_key}",
        commitPattern := "{ticket_key}: {summary}",
        pr := { baseBranch := "develop",
                titlePattern := "{ticket_key}: {summary}",
                bodyTemplate := "## Jira Ticket\n{ticket_url}\n\n## Summary\n{changes_summary}" },
        transitions := { onPrCreated := some "PR to develop open" } },
    deployment := { waitForPreview := true, previewTimeout := 300 } }

/-- A concrete ticket. -/
def sampleTicket : JiraTicket := ⟨"PROJ-1", "Fix Login Bug!!", "Bug", []⟩

/-- A concrete working copy, checked out on an up-to-date base branch. -/
def sampleRepo : GitRepo :=
  ⟨[("develop", 0)], [("develop", 0)], "develop", ⟨[], [], []⟩⟩

/-- An environment in which the ticket fetch throws. -/
def fetchFailEnv : WorkerEnv :=
  { getTicket := .error "JIRA is down", downloadAttachments := .ok (), ticketUrl := "",
    claudeResult := ⟨true, "", none⟩, claudeStatus := ⟨[], [], []⟩, claudeCommits := 0,
    push := .ok (), getCommitSummary := fun _ => .ok "",
    createPullRequest := fun _ _ _ => .error "no pr", getDeploymentUrl := .ok none,
    addComment := fun _ => .ok (), transitionTicket := fun _ => .ok () }

/-- An environment in which the agent run succeeds but leaves the tree clean
and adds no commits. -/
def noChangeEnv : WorkerEnv :=
  { fetchFailEnv with getTicket := .ok sampleTicket }

/-- The repository state after `createBranch "feature/PROJ-1" "develop"` on
`sampleRepo`. -/
def sampleBranchedRepo : GitRepo :=
  ⟨[("feature/PROJ-1", 0), ("develop", 0)], [("develop", 0)], "feature/PROJ-1",
   ⟨[], [], []⟩⟩

/-! # Theorems -/

/-! ## Branch-map lemmas -/

theorem lookupBranch_removeBranch_self (l : List (String × Nat)) (b : String) :
    lookupBranch (removeBranch l b) b = none := by
  induction l with
  | nil => rfl
  | cons x xs ih =>
    by_cases hx : x.1 = b
    · simpa [removeBranch, List.filter_cons, hx] using ih
    · simpa [removeBranch, List.filter_cons, hx, lookupBranch] using ih

theorem lookupBranch_removeBranch_ne (l : List (String × Nat)) (b k : String)
    (h : k ≠ b) : lookupBranch (removeBranch l b) k = lookupBranch l k := by
  have hbk : b ≠ k := Ne.symm h
  induction l with
  | nil => rfl
  | cons x xs ih =>
    by_cases hx : x.1 = b
    · have hxk : x.1 ≠ k := by rw [hx]; exact hbk
      simpa [removeBranch, List.filter_cons, hx, lookupBranch, hxk, hbk] using ih
    · by_cases hkx : x.1 = k
      · simp [removeBranch, List.filter_cons, hx, lookupBranch, hkx, h]
      · simpa [removeBranch, List.filter_cons, hx, lookupBranch, hkx] using ih

theorem removeBranch_of_lookupBranch_none (l : List (String × Nat)) (b : String)
    (h : lookupBranch l b = none) : removeBranch l b = l := by
  induction l with
  | nil => rfl
  | cons x xs ih =>
    by_cases hx : x.1 = b
    · simp [lookupBranch, hx] at h
    · simp [lookupBranch, hx] at h
      simp [removeBranch, List.filter_cons, hx]
      simpa [removeBranch] using ih h

theorem lookupBranch_setBranch_self (l : List (String × Nat)) (b : String) (h : Nat) :
    lookupBranch (setBranch l b h) b = some h := by
  simp [setBranch, lookupBranch]

theorem lookupBranch_setBranch_ne (l : List (String × Nat)) (b k : String) (h : Nat)
    (hk : k ≠ b) : lookupBranch (setBranch l b h) k = lookupBranch l k := by
  have hbk : b ≠ k := fun e => hk e.symm
  simp [setBranch, lookupBranch, hbk]
  simpa [removeBranch] using lookupBranch_removeBranch_ne l b k hk

theorem removeBranch_idem (l : List (String × Nat)) (b : String) :
    removeBranch (removeBranch l b) b = removeBranch l b := by
  simp [removeBranch, List.filter_filter]

theorem setBranch_eq (l : List (String × Nat)) (b : String) (h : Nat) :
    setBranch l b h = (b, h) :: removeBranch l b := rfl

theorem removeBranch_cons (x : String × Nat) (xs : List (String × Nat)) (b : String) :
    removeBranch (x :: xs) b
      = if x.1 = b then removeBranch xs b else x :: removeBranch xs b := by
  by_cases hx : x.1 = b <;> simp [removeBranch, List.filter_cons, hx]

theorem lookupBranch_cons (x : String × Nat) (xs : List (String × Nat)) (b : String) :
    lookupBranch (x :: xs) b = if x.1 = b then some x.2 else lookupBranch xs b := rfl

/-- The state produced by a successful `createBranch b base`, given the head
`rh` of the remote base branch. -/
def createdState (b base : String) (l r : List (String × Nat)) (st : GitStatus)
    (rh : Nat) : GitRepo :=
  ⟨(b, rh) :: removeBranch (setBranch l base rh) b, removeBranch r b, b, st⟩

theorem createBranch_ok_of (b base : String) (l r : List (String × Nat))
    (c : String) (st : GitStatus) (rh : Nat) (hb : b ≠ base)
    (hl : (lookupBranch l base).isSome = true)
    (hr : lookupBranch r base = some rh) :
    GitHubClient.createBranch b base ⟨l, r, c, st⟩
      = (createdState b base l r st rh, Except.ok ()) := by
  rcases hloc : lookupBranch (setBranch l base rh) b with _ | v <;>
  rcases hrem : lookupBranch r b with _ | w <;>
    simp [GitHubClient.createBranch, GitHubClient.getBranchExists, gitCheckout,
      gitPull, gitBranchDelete, gitPushDelete, gitCheckoutNew, createdState,
      hb, hl, hr, hloc, hrem, lookupBranch_removeBranch_self,
      lookupBranch_removeBranch_ne, lookupBranch_setBranch_self,
      lookupBranch_setBranch_ne, removeBranch_of_lookupBranch_none,
      Ne.symm hb]

theorem createBranch_again (b base : String) (l r : List (String × Nat))
    (st : GitStatus) (rh : Nat) (hb : b ≠ base)
    (hr : lookupBranch r base = some rh) :
    GitHubClient.createBranch b base (createdState b base l r st rh)
      = (createdState b base l r st rh, Except.ok ()) := by
  simp [GitHubClient.createBranch, GitHubClient.getBranchExists, gitCheckout,
    gitPull, gitBranchDelete, gitPushDelete, gitCheckoutNew, createdState,
    setBranch_eq, removeBranch_cons, lookupBranch_cons,
    hb, hr, lookupBranch_removeBranch_self, lookupBranch_removeBranch_ne,
    lookupBranch_setBranch_self, lookupBranch_setBranch_ne,
    removeBranch_of_lookupBranch_none, removeBranch_idem, Ne.symm hb]

/-- Claim C7: calling `createBranch` twice in a row with the same branch name
and base branch yields the same branch state both times — a pre-existing
local branch is force-deleted, a same-named remote branch is deleted with its
absence tolerated, and the branch is recreated from the updated base — so the
second call raises no "branch already exists" error. -/
theorem createBranch_idempotent (b base : String) (l r : List (String × Nat))
    (c : String) (st : GitStatus) (rh : Nat) (hb : b ≠ base)
    (hl : (lookupBranch l base).isSome = true)
    (hr : lookupBranch r base = some rh) :
    ∃ g1 : GitRepo,
      GitHubClient.createBranch b base ⟨l, r, c, st⟩ = (g1, Except.ok ()) ∧
      GitHubClient.createBranch b base g1 = (g1, Except.ok ()) ∧
      g1.currentBranch = b ∧
      lookupBranch g1.localBranches b = some rh ∧
      lookupBranch g1.remoteBranches b = none :=
  ⟨createdState b base l r st rh,
   createBranch_ok_of b base l r c st rh hb hl hr,
   createBranch_again b base l r st rh hb hr,
   rfl,
   by simp [createdState, lookupBranch_cons],
   by simp [createdState, lookupBranch_removeBranch_self]⟩

/-- Witness for C7 on a concrete repository state. -/
theorem createBranch_idempotent_witness :
    ∃ g1 : GitRepo,
      GitHubClient.createBranch "feature/PROJ-9" "develop"
          ⟨[("develop", 3)], [("develop", 5)], "develop", ⟨[], [], []⟩⟩
        = (g1, Except.ok ()) ∧
      GitHubClient.createBranch "feature/PROJ-9" "develop" g1 = (g1, Except.ok ()) ∧
      g1.currentBranch = "feature/PROJ-9" ∧
      lookupBranch g1.localBranches "feature/PROJ-9" = some 5 ∧
      lookupBranch g1.remoteBranches "feature/PROJ-9" = none :=
  createBranch_idempotent "feature/PROJ-9" "develop" [("develop", 3)]
    [("develop", 5)] "develop" ⟨[], [], []⟩ 5 (by decide) (by decide) (by decide)

/-! ## Worker state lemmas -/

theorem lookupBranch_isSome_setBranch (l : List (String × Nat)) (b k : String)
    (h : Nat) (hs : (lookupBranch l k).isSome = true) :
    (lookupBranch (setBranch l b h) k).isSome = true := by
  by_cases hk : k = b
  · subst hk; simp [lookupBranch_setBranch_self]
  · simpa [lookupBranch_setBranch_ne l b k h hk] using hs

theorem createBranch_preserves_base (b base : String) (g : GitRepo)
    (hs : (lookupBranch g.localBranches base).isSome = true) :
    (lookupBranch (GitHubClient.createBranch b base g).1.localBranches base).isSome
      = true := by
  by_cases hbb : b = base
  · subst hbb
    rcases hrem : lookupBranch g.remoteBranches b with _ | h
    · simpa [GitHubClient.createBranch, gitCheckout, gitPull, hs, hrem] using hs
    · simp [GitHubClient.createBranch, gitCheckout, gitPull, gitBranchDelete,
        GitHubClient.getBranchExists, hs, hrem, lookupBranch_setBranch_self]
  · rcases hrem : lookupBranch g.remoteBranches base with _ | h
    · simpa [GitHubClient.createBranch, gitCheckout, gitPull, hs, hrem] using hs
    · have hbase_b : base ≠ b := Ne.symm hbb
      rcases hloc : lookupBranch (setBranch g.localBranches base h) b with _ | v <;>
      rcases hremb : lookupBranch g.remoteBranches b with _ | w <;>
        simp [GitHubClient.createBranch, gitCheckout, gitPull, gitBranchDelete,
          gitPushDelete, gitCheckoutNew, GitHubClient.getBranchExists, hs, hrem,
          hloc, hremb, hbb, hbase_b, lookupBranch_cons,
          lookupBranch_setBranch_self, lookupBranch_setBranch_ne,
          lookupBranch_removeBranch_self, lookupBranch_removeBranch_ne,
          removeBranch_of_lookupBranch_none]

theorem gitCheckoutNew_ok_currentBranch (b : String) (g g5 : GitRepo)
    (h : gitCheckoutNew b g = .ok g5) : g5.currentBranch = b := by
  unfold gitCheckoutNew at h
  by_cases hx : (lookupBranch g.localBranches b).isSome
  · simp [hx] at h
  · simp [hx] at h
    rcases hcur : lookupBranch g.localBranches g.currentBranch with _ | hd
    · simp [hcur] at h
    · simp [hcur] at h
      rw [← h]

theorem createBranch_ok_currentBranch (b base : String) (g g1 : GitRepo) (u : Unit)
    (hok : GitHubClient.createBranch b base g = (g1, Except.ok u)) :
    g1.currentBranch = b := by
  unfold GitHubClient.createBranch at hok
  rcases h1 : gitCheckout base g with m1 | ga
  all_goals rw [h1] at hok; dsimp only at hok
  · simp at hok
  rcases h2 : gitPull base ga with m2 | gb
  all_goals rw [h2] at hok; dsimp only at hok
  · simp at hok
  rcases h3 : (if GitHubClient.getBranchExists b gb = true
      then gitBranchDelete b gb else Except.ok gb) with m3 | gc
  all_goals rw [h3] at hok; dsimp only at hok
  · simp at hok
  rcases h4 : gitPushDelete b gc with m4 | gd
  all_goals rw [h4] at hok; dsimp only at hok
  · rcases h5 : gitCheckoutNew b gc with m5 | ge
    all_goals rw [h5] at hok; dsimp only at hok
    · simp at hok
    · simp at hok
      exact hok ▸ gitCheckoutNew_ok_currentBranch _ _ _ h5
  · rcases h5 : gitCheckoutNew b gd with m5 | ge
    all_goals rw [h5] at hok; dsimp only at hok
    · simp at hok
    · simp at hok
      exact hok ▸ gitCheckoutNew_ok_currentBranch _ _ _ h5

theorem runClaudeEffect_preserves (env : WorkerEnv) (g : GitRepo) (k : String)
    (hs : (lookupBranch g.localBranches k).isSome = true) :
    (lookupBranch (Worker.runClaudeEffect env g).localBranches k).isSome = true := by
  unfold Worker.runClaudeEffect
  rcases hcur : lookupBranch g.localBranches g.currentBranch with _ | h
  · simpa [hcur] using hs
  · simpa [hcur] using
      lookupBranch_isSome_setBranch g.localBranches g.currentBranch k
        (h + env.claudeCommits) hs

theorem runClaudeEffect_currentBranch (env : WorkerEnv) (g : GitRepo) :
    (Worker.runClaudeEffect env g).currentBranch = g.currentBranch := rfl

theorem commitChanges_ok_preserves (m : String) (g g3 : GitRepo) (k : String)
    (hok : GitHubClient.commitChanges m g = .ok g3)
    (hs : (lookupBranch g.localBranches k).isSome = true) :
    (lookupBranch g3.localBranches k).isSome = true := by
  unfold GitHubClient.commitChanges at hok
  by_cases hst : g.status = ⟨[], [], []⟩
  · simp [hst] at hok
  · simp [hst] at hok
    rcases hcur : lookupBranch g.localBranches g.currentBranch with _ | h
    · simp [hcur] at hok
    · simp [hcur] at hok
      rw [← hok]
      exact lookupBranch_isSome_setBranch g.localBranches g.currentBranch k (h + 1) hs

theorem pushBranch_ok_local (net : Except String Unit) (b : String) (g g4 : GitRepo)
    (hok : GitHubClient.pushBranch net b g = .ok g4) :
    g4.localBranches = g.localBranches := by
  unfold GitHubClient.pushBranch at hok
  rcases net with msg | u
  · simp at hok
  · rcases hcur : lookupBranch g.localBranches b with _ | h
    · simp [hcur] at hok
    · simp [hcur] at hok
      rw [← hok]

theorem gitCheckout_ok_local (b : String) (g g5 : GitRepo)
    (hok : gitCheckout b g = .ok g5) : g5.localBranches = g.localBranches := by
  unfold gitCheckout at hok
  by_cases hx : (lookupBranch g.localBranches b).isSome
  · simp [hx] at hok
    rw [← hok]
  · simp [hx] at hok

theorem commitStep_preserves (m : String) (g2 g3 : GitRepo) (k : String) (c : Bool)
    (heq : (if c = true then GitHubClient.commitChanges m g2 else Except.ok g2)
            = Except.ok g3)
    (hs : (lookupBranch g2.localBranches k).isSome = true) :
    (lookupBranch g3.localBranches k).isSome = true := by
  by_cases hc : c = true
  · rw [if_pos hc] at heq
    exact commitChanges_ok_preserves m g2 g3 k heq hs
  · rw [if_neg hc] at heq
    injection heq with h
    exact h ▸ hs

theorem processTicketBody_preserves_base (cfg : ProjectConfig) (env : WorkerEnv)
    (ticketKey : String) (g : GitRepo)
    (hs : (lookupBranch g.localBranches cfg.workflow.pr.baseBranch).isSome = true) :
    (lookupBranch (Worker.processTicketBody cfg env ticketKey g).1.localBranches
        cfg.workflow.pr.baseBranch).isSome = true := by
  unfold Worker.processTicketBody
  rcases h1 : env.getTicket with m1 | ticket
  · dsimp only; exact hs
  dsimp only
  rcases h2 : (if ticket.attachments.isEmpty then Except.ok ()
               else env.downloadAttachments : Except String Unit) with m2 | u2
  · dsimp only; exact hs
  dsimp only
  rcases h3 : GitHubClient.createBranch
      (Worker.formatPattern cfg.workflow.branchPattern ticket)
      cfg.workflow.pr.baseBranch g with ⟨g1, e1⟩
  have hg1 : (lookupBranch g1.localBranches cfg.workflow.pr.baseBranch).isSome = true := by
    have hp := createBranch_preserves_base
      (Worker.formatPattern cfg.workflow.branchPattern ticket)
      cfg.workflow.pr.baseBranch g hs
    rw [h3] at hp
    exact hp
  rcases e1 with m3 | u3
  · dsimp only; exact hg1
  dsimp only
  have hg2 : (lookupBranch (Worker.runClaudeEffect env g1).localBranches
      cfg.workflow.pr.baseBranch).isSome = true :=
    runClaudeEffect_preserves env g1 _ hg1
  split
  · exact hg2
  split
  · exact hg2
  split
  · exact hg2
  next g3 heq3 =>
  have hg3 : (lookupBranch g3.localBranches cfg.workflow.pr.baseBranch).isSome = true :=
    commitStep_preserves _ _ _ _ _ heq3 hg2
  split
  · exact hg3
  next g4 heq4 =>
  have hg4 : (lookupBranch g4.localBranches cfg.workflow.pr.baseBranch).isSome = true := by
    rw [pushBranch_ok_local _ _ _ _ heq4]
    exact hg3
  split
  · exact hg4
  next changesSummary heq5 =>
  split
  · exact hg4
  next pr heq6 =>
  split
  · exact hg4
  next rawUrl heq7 =>
  split
  · exact hg4
  next u8 heq8 =>
  split
  · exact hg4
  next u9 heq9 =>
  split
  · exact hg4
  next g5 heq10 =>
  have hloc : g5.localBranches = g4.localBranches :=
    gitCheckout_ok_local _ _ _ heq10
  rw [hloc]
  exact hg4

/-- Claim C8: for the branch pattern `"feature/{ticket_key}"` and ticket key
`"PROJ-42"`, `formatPattern` resolves to exactly `"feature/PROJ-42"`; and for
the summary `"Fix Login Bug!!"`, sanitization yields exactly
`"fix-login-bug"` — lower-cased, runs of non-alphanumeric characters
collapsed to single hyphens, with no leading or trailing hyphen. -/
theorem formatPattern_sanitize_examples :
    Worker.formatPattern "feature/{ticket_key}" ⟨"PROJ-42", "Fix Login Bug!!", "Bug", []⟩
      = "feature/PROJ-42" ∧
    Worker.sanitizeForBranch "Fix Login Bug!!" = "fix-login-bug" := by
  decide

/-- Claim C5: with a tracker whose search always returns the same single
ticket, `getNextTicket` yields that ticket from a fresh poller, yields no
ticket after `markProcessed` of its key, and yields the ticket again after a
subsequent `clearProcessed`. -/
theorem poller_dedup_cycle (t : JiraTicket) :
    (Poller.getNextTicket (.ok [t]) Poller.init).1 = some t ∧
    (Poller.getNextTicket (.ok [t])
      (Poller.markProcessed (Poller.getNextTicket (.ok [t]) Poller.init).2 t.key)).1
        = none ∧
    (Poller.getNextTicket (.ok [t])
      (Poller.clearProcessed
        (Poller.markProcessed (Poller.getNextTicket (.ok [t]) Poller.init).2 t.key))).1
        = some t := by
  simp [Poller.getNextTicket, Poller.init, Poller.markProcessed, Poller.clearProcessed]

/-- Claim C6: when the tracker query throws, `getNextTicket` swallows the
error and returns the no-ticket result unchanged — the very same value an
empty batch produces, so a poll error is indistinguishable from an empty
poll. -/
theorem poller_error_swallowed (errMsg : String) (s : PollerState) :
    Poller.getNextTicket (.error errMsg) s = (none, s) ∧
    Poller.getNextTicket (.error errMsg) s = Poller.getNextTicket (.ok []) s :=
  ⟨rfl, rfl⟩

/-- Claim C10: `getNextTicket` never modifies the processed set, so repeated
calls against a fixed tracker response return the same ticket. -/
theorem getNextTicket_pure (search : Except String (List JiraTicket)) (s : PollerState) :
    (Poller.getNextTicket search s).2 = s ∧
    Poller.getNextTicket search (Poller.getNextTicket search s).2
      = Poller.getNextTicket search s := by
  cases search <;> simp [Poller.getNextTicket]

/-- Claim C4: in every daemon poll that dispatches a ticket, once the
worker's `processTicket` returns — whatever the result — the ticket key is
marked processed and `currentTicket` is reset to empty. -/
theorem daemon_poll_marks_and_clears (search : Except String (List JiraTicket))
    (work : String → WorkResult) (s : DaemonState) (t : JiraTicket) (p : PollerState)
    (hdispatch : Poller.getNextTicket search s.poller = (some t, p)) :
    (Daemon.poll search work s).1.poller.processedTickets.contains t.key = true ∧
    (Daemon.poll search work s).1.currentTicket = none := by
  unfold Daemon.poll
  rw [hdispatch]
  refine ⟨?_, rfl⟩
  by_cases hc : t.key ∈ p.processedTickets <;>
    simp [Poller.markProcessed, hc]

/-- Witness for C4 at a concrete dispatching poll. -/
theorem daemon_poll_marks_and_clears_witness :
    (Daemon.poll (.ok [⟨"PROJ-7", "Fix", "Bug", []⟩])
        (fun k => { success := true, ticketKey := k })
        ⟨⟨[]⟩, none⟩).1.poller.processedTickets.contains "PROJ-7" = true ∧
    (Daemon.poll (.ok [⟨"PROJ-7", "Fix", "Bug", []⟩])
        (fun k => { success := true, ticketKey := k })
        ⟨⟨[]⟩, none⟩).1.currentTicket = none :=
  daemon_poll_marks_and_clears (.ok [⟨"PROJ-7", "Fix", "Bug", []⟩])
    (fun k => { success := true, ticketKey := k })
    ⟨⟨[]⟩, none⟩ ⟨"PROJ-7", "Fix", "Bug", []⟩ ⟨[]⟩ (by decide)

/-- Claim C3 (counterexample): on the timeout path the resolved result's
error message does not mention the timeout — with nothing captured on the
subprocess's stderr it is exactly "Claude exited with code null" (the
timed-out message goes to the operator console, not into the result). -/
theorem runClaude_timeout_message_counterexample :
    (ClaudeClient.timedOutResult "" "").success = false ∧
    (ClaudeClient.timedOutResult "" "").error = some "Claude exited with code null" ∧
    ClaudeClient.mentionsTimeout "Claude exited with code null" = false := by
  decide

/-- Claim C3 (amended): when the agent subprocess exceeds the timeout, the
run resolves `success = false` with the captured stderr as the error, or
"Claude exited with code null" when stderr is empty (the timeout itself is
only printed to the console); the subprocess is first sent SIGTERM, and
SIGKILL follows the 5-second grace period exactly when the `killed` flag is
still false — that flag records whether the SIGTERM was delivered, not
whether the process is still alive. -/
theorem runClaude_timeout_behavior (stdoutCaptured stderrCaptured : String)
    (killedFlagAfterGrace : Bool) :
    (ClaudeClient.timedOutResult stdoutCaptured stderrCaptured).success = false ∧
    (ClaudeClient.timedOutResult stdoutCaptured stderrCaptured).error =
      some (if stderrCaptured = "" then "Claude exited with code null" else stderrCaptured) ∧
    (ClaudeClient.timeoutKillSequence killedFlagAfterGrace).head?
      = some ClaudeClient.Signal.SIGTERM ∧
    (ClaudeClient.Signal.SIGKILL ∈ ClaudeClient.timeoutKillSequence killedFlagAfterGrace
      ↔ killedFlagAfterGrace = false) := by
  refine ⟨rfl, ?_, rfl, ?_⟩
  · by_cases h : stderrCaptured = "" <;>
      simp [ClaudeClient.timedOutResult, ClaudeClient.closeResult, ClaudeClient.codeString, h]
  · cases killedFlagAfterGrace <;>
      simp [ClaudeClient.timeoutKillSequence]

/-- Claim C1: for every ticket key and every exception thrown during the run
(in particular from branch-creation onward), `processTicket` catches it,
checks the working tree out on the configured base branch, and returns a
`WorkResult` with `success = false` carrying the ticket key and the error
message.  The base branch is assumed to exist in the local clone, as
checking it out requires. -/
theorem processTicket_catches_and_restores (cfg : ProjectConfig) (env : WorkerEnv)
    (ticketKey : String) (g gerr : GitRepo) (evs : List WorkerCall) (msg : String)
    (hbase : (lookupBranch g.localBranches cfg.workflow.pr.baseBranch).isSome = true)
    (herr : Worker.processTicketBody cfg env ticketKey g
              = (gerr, evs, Except.error msg)) :
    (Worker.processTicket cfg env ticketKey g).1.currentBranch
      = cfg.workflow.pr.baseBranch ∧
    (Worker.processTicket cfg env ticketKey g).2.2
      = { success := false, ticketKey := ticketKey, error := some msg } := by
  have hpre := processTicketBody_preserves_base cfg env ticketKey g hbase
  rw [herr] at hpre
  unfold Worker.processTicket
  rw [herr]
  dsimp only
  simp [GitHubClient.checkoutBranch, gitCheckout, hpre]

/-- Witness for C1: the ticket fetch throws, and the run ends back on the
base branch with a structured failure result. -/
theorem processTicket_catches_and_restores_witness :
    (Worker.processTicket sampleConfig fetchFailEnv "PROJ-1" sampleRepo).1.currentBranch
      = "develop" ∧
    (Worker.processTicket sampleConfig fetchFailEnv "PROJ-1" sampleRepo).2.2
      = { success := false, ticketKey := "PROJ-1", error := some "JIRA is down" } :=
  processTicket_catches_and_restores sampleConfig fetchFailEnv "PROJ-1" sampleRepo
    sampleRepo [WorkerCall.fetchTicket] "JIRA is down" (by decide) (by rfl)

/-- Claim C2: if, after a successful agent run, the working tree has no
staged, unstaged or untracked changes and the feature branch has no commits
beyond the base branch, then `processTicket` returns `success = false` with
the error "No changes were made", and neither a push nor a pull-request
creation is attempted. -/
theorem processTicket_no_changes (cfg : ProjectConfig) (env : WorkerEnv)
    (ticketKey : String) (g0 g1 : GitRepo) (ticket : JiraTicket)
    (h1 : env.getTicket = Except.ok ticket)
    (h2 : (if ticket.attachments.isEmpty then Except.ok ()
           else env.downloadAttachments : Except String Unit) = Except.ok ())
    (h3 : GitHubClient.createBranch
            (Worker.formatPattern cfg.workflow.branchPattern ticket)
            cfg.workflow.pr.baseBranch g0 = (g1, Except.ok ()))
    (h4 : env.claudeResult.success = true)
    (h5 : (Worker.runClaudeEffect env g1).status = ⟨ [], [], [] ⟩)
    (h6 : GitHubClient.hasNewCommits cfg.workflow.pr.baseBranch
            (Worker.runClaudeEffect env g1) = false) :
    (Worker.processTicket cfg env ticketKey g0).2.2
      = { success := false, ticketKey := ticketKey,
          error := some "No changes were made" } ∧
    (∀ n, WorkerCall.push n ∉ (Worker.processTicket cfg env ticketKey g0).2.1) ∧
    WorkerCall.createPr ∉ (Worker.processTicket cfg env ticketKey g0).2.1 := by
  by_cases hA : ticket.attachments.isEmpty = true
  · rw [if_pos hA] at h2
    simp [Worker.processTicket, Worker.processTicketBody, GitHubClient.getStatus,
      h1, h3, h4, h5, h6, hA]
  · rw [if_neg hA] at h2
    simp [Worker.processTicket, Worker.processTicketBody, GitHubClient.getStatus,
      h1, h2, h3, h4, h5, h6, hA]

/-- Witness for C2: concrete no-change run. -/
theorem processTicket_no_changes_witness :
    (Worker.processTicket sampleConfig noChangeEnv "PROJ-1" sampleRepo).2.2
      = { success := false, ticketKey := "PROJ-1",
          error := some "No changes were made" } ∧
    WorkerCall.push "feature/PROJ-1"
      ∉ (Worker.processTicket sampleConfig noChangeEnv "PROJ-1" sampleRepo).2.1 ∧
    WorkerCall.createPr
      ∉ (Worker.processTicket sampleConfig noChangeEnv "PROJ-1" sampleRepo).2.1 := by
  have h := processTicket_no_changes sampleConfig noChangeEnv "PROJ-1" sampleRepo
    sampleBranchedRepo sampleTicket rfl rfl (by rfl) rfl rfl rfl
  exact ⟨ h.1, h.2.1 "feature/PROJ-1", h.2.2 ⟩

/-- Claim C9 (implicit): on the no-changes early return, the working tree is
left checked out on the freshly created feature branch; no `checkoutBranch`
call is made on this path (the base branch is restored only on the success
path and in the exception handler). -/
theorem processTicket_no_changes_stays_on_feature (cfg : ProjectConfig)
    (env : WorkerEnv) (ticketKey : String) (g0 g1 : GitRepo) (ticket : JiraTicket)
    (h1 : env.getTicket = Except.ok ticket)
    (h2 : (if ticket.attachments.isEmpty then Except.ok ()
           else env.downloadAttachments : Except String Unit) = Except.ok ())
    (h3 : GitHubClient.createBranch
            (Worker.formatPattern cfg.workflow.branchPattern ticket)
            cfg.workflow.pr.baseBranch g0 = (g1, Except.ok ()))
    (h4 : env.claudeResult.success = true)
    (h5 : (Worker.runClaudeEffect env g1).status = ⟨ [], [], [] ⟩)
    (h6 : GitHubClient.hasNewCommits cfg.workflow.pr.baseBranch
            (Worker.runClaudeEffect env g1) = false) :
    (Worker.processTicket cfg env ticketKey g0).1.currentBranch
      = Worker.formatPattern cfg.workflow.branchPattern ticket ∧
    (∀ n, WorkerCall.checkout n ∉ (Worker.processTicket cfg env ticketKey g0).2.1) := by
  have hcur : g1.currentBranch = Worker.formatPattern cfg.workflow.branchPattern ticket :=
    createBranch_ok_currentBranch _ _ _ _ () h3
  by_cases hA : ticket.attachments.isEmpty = true
  · rw [if_pos hA] at h2
    simp [Worker.processTicket, Worker.processTicketBody, GitHubClient.getStatus,
      runClaudeEffect_currentBranch, h1, h3, h4, h5, h6, hA, hcur]
  · rw [if_neg hA] at h2
    simp [Worker.processTicket, Worker.processTicketBody, GitHubClient.getStatus,
      runClaudeEffect_currentBranch, h1, h2, h3, h4, h5, h6, hA, hcur]

/-- Witness for C9: concrete no-change run ends on the feature branch. -/
theorem processTicket_no_changes_stays_on_feature_witness :
    (Worker.processTicket sampleConfig noChangeEnv "PROJ-1" sampleRepo).1.currentBranch
      = "feature/PROJ-1" ∧
    WorkerCall.checkout "develop"
      ∉ (Worker.processTicket sampleConfig noChangeEnv "PROJ-1" sampleRepo).2.1 := by
  have h := processTicket_no_changes_stays_on_feature sampleConfig noChangeEnv
    "PROJ-1" sampleRepo sampleBranchedRepo sampleTicket rfl rfl (by rfl) rfl rfl rfl
  exact ⟨ h.1, h.2 "develop" ⟩

end JiraClaudeBot
